import Mathlib

/-!
Verification of the doc-verifier command-execution engine
(`src/agents/doc-verifier/shell_server.py` and
`src/agents/doc-verifier/agent.py`) against its specification.

The Python code is shallowly embedded: the host operating system
(`subprocess.run`, `os.path.exists`, `os.listdir`, `open(...).read()`) is an
abstract `Host` record whose operations either return a value or raise a
Python exception (`Except PyExc`); the tool handlers are total Lean
functions over that record, with `try/except` blocks embedded as explicit
matches on the `Except` value.
-/

namespace Skitz

/-- A Python exception that `except Exception` can catch.
`timeoutExpired` is `subprocess.TimeoutExpired` (carrying the command, the
timeout, and whatever stdout/stderr the child had produced when it was
killed); `osError` is any other exception (e.g. `FileNotFoundError`,
`PermissionError`), carrying its `str(e)` text. -/
inductive PyExc where
  | timeoutExpired (cmd : String) (timeout : Nat) (pOut pErr : String)
  | osError (msg : String)
deriving DecidableEq

/-- The `str(e)` rendering of an exception, close to what Python produces
(the exact `TimeoutExpired` wording is irrelevant to every property below:
the handlers that matter catch it before rendering). -/
def PyExc.str : PyExc → String
  | .timeoutExpired cmd t _ _ =>
      "Command " ++ cmd ++ " timed out after " ++ toString t ++ " seconds"
  | .osError m => m

/-- A completed `subprocess.run` result: `returncode`, `stdout`, `stderr`. -/
structure RunResult where
  returncode : Int
  stdout : String
  stderr : String
deriving DecidableEq

/-- The host system as seen by the Python code: `run cmd timeout` is
`subprocess.run(["sh", "-c", cmd], capture_output=True, text=True,
timeout=timeout)`, `path_exists` is `os.path.exists`, `listdir` is
`os.listdir`, `readFile` is `open(path).read()`. Each fallible call
returns `Except PyExc`. -/
structure Host where
  run : String → Nat → Except PyExc RunResult
  path_exists : String → Bool
  listdir : String → Except PyExc (List String)
  readFile : String → Except PyExc String

/-- `d.get(k, dflt)` on the `arguments` dict, modelled as an association
list. -/
def dictGet (d : List (String × String)) (k dflt : String) : String :=
  match d.find? (fun p => p.1 == k) with
  | some p => p.2
  | none => dflt

/-- Python's `sep.join(parts)`. -/
def pyJoin (sep : String) : List String → String
  | [] => ""
  | a :: as => as.foldl (fun acc x => acc ++ sep ++ x) a

/-- Lexicographic comparison of char lists by code point (Python's string
order). -/
def charListLe : List Char → List Char → Bool
  | [], _ => true
  | _ :: _, [] => false
  | a :: as, b :: bs =>
      if a.toNat < b.toNat then true
      else if b.toNat < a.toNat then false
      else charListLe as bs

/-- Python's ascending string order: lexicographic by code point. -/
def strLe (s t : String) : Bool := charListLe s.toList t.toList

/-- Python's `sorted(...)` on strings (ascending lexicographic order,
implemented here as insertion sort, which like Python's sort is stable). -/
def pysorted (l : List String) : List String :=
  List.insertionSort (fun a b => strLe a b = true) l

instance : IsTotal String (fun a b => strLe a b = true) := by
  constructor
  intro s t
  show charListLe s.toList t.toList = true ∨ charListLe t.toList s.toList = true
  generalize s.toList = x
  generalize t.toList = y
  induction x generalizing y with
  | nil => left; rfl
  | cons a as ih =>
    cases y with
    | nil => right; rfl
    | cons b bs =>
      by_cases h1 : a.toNat < b.toNat
      · left; simp [charListLe, h1]
      · by_cases h2 : b.toNat < a.toNat
        · right; simp [charListLe, h2]
        · rcases ih bs with h | h
          · left; simpa [charListLe, h1, h2] using h
          · right; simpa [charListLe, h1, h2] using h

instance : IsTrans String (fun a b => strLe a b = true) := by
  constructor
  intro s t u hst htu
  show charListLe s.toList u.toList = true
  rw [strLe] at hst htu
  generalize hx : s.toList = x at *
  generalize hy : t.toList = y at *
  generalize hz : u.toList = z at *
  clear hx hy hz s t u
  revert hst htu
  induction x generalizing y z with
  | nil => intro _ _; rfl
  | cons a as ih =>
    cases y with
    | nil => intro hst _; simp [charListLe] at hst
    | cons b bs =>
      cases z with
      | nil => intro _ htu; simp [charListLe] at htu
      | cons c cs =>
        intro hst htu
        simp only [charListLe] at hst htu ⊢
        by_cases hab : a.toNat < b.toNat
        · by_cases hbc : b.toNat < c.toNat
          · simp [show a.toNat < c.toNat from by omega]
          · by_cases hcb : c.toNat < b.toNat
            · simp [hbc, hcb] at htu
            · simp [show a.toNat < c.toNat from by omega]
        · by_cases hba : b.toNat < a.toNat
          · simp [hab, hba] at hst
          · simp [hab, hba] at hst
            by_cases hbc : b.toNat < c.toNat
            · simp [show a.toNat < c.toNat from by omega]
            · by_cases hcb : c.toNat < b.toNat
              · simp [hbc, hcb] at htu
              · simp [hbc, hcb] at htu
                simp [show ¬ a.toNat < c.toNat from by omega,
                      show ¬ c.toNat < a.toNat from by omega]
                exact ih bs cs hst htu

/-- Python's `s.endswith(suffix)`. -/
def pyEndsWith (s suffix : String) : Bool :=
  suffix.toList.isSuffixOf s.toList

/-- Python's `needle in hay` substring test. -/
def containsStr (hay needle : String) : Bool :=
  hay.toList.tails.any (fun t => needle.toList.isPrefixOf t)

/-- Whether `s` starts with `pre`. -/
def startsWithL (pre s : String) : Bool :=
  pre.toList.isPrefixOf s.toList

/-- The payload format `shell_server.py` builds for a completed command
(lines 90-92 and 130-132):
`output = f"Exit Code: {result.returncode}\nOutput:\n{result.stdout}"`,
then `output += f"\nSTDERR:\n{result.stderr}"` when `result.stderr` is
truthy (i.e. non-empty). -/
def execOutput (result : RunResult) : String :=
  let output := "Exit Code: " ++ toString result.returncode ++ "\nOutput:\n" ++ result.stdout
  if result.stderr ≠ "" then output ++ "\nSTDERR:\n" ++ result.stderr else output

/-- `call_tool(name, arguments)` from `shell_server.py` (lines 79-140).
The result is `Except PyExc (List String)`: an `.ok` value is the list of
`TextContent` texts returned to the protocol client, and an `.error` would
be an exception escaping the handler (the source wraps every fallible
operation in `try/except Exception`, embedded here as the match arms on
the host call's result). -/
def call_tool (name : String) (arguments : List (String × String)) (host : Host) :
    Except PyExc (List String) :=
  if name = "run_command" then
    let command := dictGet arguments "command" ""
    match host.run command 30 with
    | .ok result => .ok [execOutput result]
    | .error (.timeoutExpired _ _ _ _) =>
        .ok ["Error: Command timed out after 30 seconds"]
    | .error e => .ok [("Error executing command: " ++ e.str)]
  else if name = "list_files" then
    let directory := dictGet arguments "directory" "."
    if host.path_exists directory = false then
      .ok ["Error: Directory not found: " ++ directory]
    else
      match host.listdir directory with
      | .ok files =>
          let result := pyJoin "\n" (pysorted files)
          .ok [if result ≠ "" then result else "(empty directory)"]
      | .error e => .ok [("Error listing directory: " ++ e.str)]
  else if name = "read_file" then
    let path := dictGet arguments "path" ""
    if host.path_exists path = false then
      .ok ["Error: File not found: " ++ path]
    else
      match host.readFile path with
      | .ok content => .ok [content]
      | .error e => .ok [("Error reading file: " ++ e.str)]
  else if name = "setup_environment" then
    let command := dictGet arguments "command" ""
    match host.run command 120 with
    | .ok result => .ok [execOutput result]
    | .error (.timeoutExpired _ _ _ _) =>
        .ok ["Error: Setup command timed out after 120 seconds"]
    | .error e => .ok [("Error executing setup: " ++ e.str)]
  else
    .ok ["Unknown tool: " ++ name]

/-- The resources root used by `agent.py`. -/
def resources_dir : String := "/skitz/internal/resources"

/-- `list_resources()` from `agent.py` (lines 9-24): missing directory is
reported, `.md` entries are filtered, sorted and joined with newlines, and
any exception is caught and rendered as an error string. -/
def list_resources (host : Host) : Except PyExc String :=
  if host.path_exists resources_dir = false then
    .ok "Resources directory not found. Ensure /skitz is mounted."
  else
    match host.listdir resources_dir with
    | .ok fs =>
        .ok (pyJoin "\n" (pysorted (fs.filter (fun f => pyEndsWith f ".md"))))
    | .error e => .ok ("Error listing resources: " ++ e.str)

/-- `read_resource(filename)` from `agent.py` (lines 26-40). -/
def read_resource (filename : String) (host : Host) : Except PyExc String :=
  match host.readFile ("/skitz/internal/resources/" ++ filename) with
  | .ok c => .ok c
  | .error e => .ok ("Error reading " ++ filename ++ ": " ++ e.str)

/-- `run_shell_command(command)` from `agent.py` (lines 42-75): builds the
payload as `"\n".join(parts)` and catches every exception (including
`TimeoutExpired`, which has no dedicated handler there) as
`f"Error executing command: {str(e)}"`. -/
def run_shell_command (command : String) (host : Host) : Except PyExc String :=
  match host.run command 30 with
  | .ok result =>
      let parts := ["Exit Code: " ++ toString result.returncode, "Output:", result.stdout]
      let parts := if result.stderr ≠ "" then parts ++ ["STDERR:", result.stderr] else parts
      .ok (pyJoin "\n" parts)
  | .error e => .ok ("Error executing command: " ++ e.str)

/-- The payload grammar of spec §6 for execution operations:
`Exit Code: <n>\nOutput:\n<stdout>[\nSTDERR:\n<stderr>]`, the bracketed
segment present exactly when the captured stderr is non-empty. Stated from
the spec's words, to be compared with the source's `execOutput`. -/
def specPayload (n : Int) (out err : String) : String :=
  if err = "" then "Exit Code: " ++ toString n ++ "\nOutput:\n" ++ out
  else "Exit Code: " ++ toString n ++ "\nOutput:\n" ++ out ++ "\nSTDERR:\n" ++ err

/-- Whether a tool result is an error-tagged (structured `InvalidCall` /
`Error:`-style) text rather than an execution payload or file content. -/
def errorTagged (r : Except PyExc (List String)) : Bool :=
  match r with
  | .ok texts => texts.any (fun s => startsWithL "Error" s || startsWithL "Unknown tool" s)
  | .error _ => false

/-- A protocol tool call: operation name plus argument mapping. -/
structure ToolCall where
  name : String
  arguments : List (String × String)

/-- Runs a sequence of tool calls through `call_tool`. The multiplexer
itself keeps no state between calls (the source module holds only the
handler registry), so the only thing threaded through the sequence is the
host state, evolved by an arbitrary host-transition function `step`
(the filesystem/process effects of each call). -/
def runSeq (step : Host → ToolCall → Host) :
    Host → List ToolCall → Host × List (Except PyExc (List String))
  | h, [] => (h, [])
  | h, c :: cs =>
      let r := call_tool c.name c.arguments h
      let rest := runSeq step (step h c) cs
      (rest.1, r :: rest.2)

/-- The host state after a sequence of calls. -/
def finalHost (step : Host → ToolCall → Host) (h : Host) (cs : List ToolCall) : Host :=
  (runSeq step h cs).1

/-- A host on which every command completes with exit 0 and stdout `ran()`
surrounding the command text: used to observe that a call actually reached
the sandbox. -/
def hostEcho : Host where
  run := fun c _ => .ok ⟨0, "ran(" ++ c ++ ")", ""⟩
  path_exists := fun _ => true
  listdir := fun _ => .ok []
  readFile := fun _ => .ok ""

/-- A host on which every command times out with buffered partial output. -/
def hostTimeout : Host where
  run := fun c t => .error (.timeoutExpired c t "some buffered output" "")
  path_exists := fun _ => true
  listdir := fun _ => .ok []
  readFile := fun _ => .ok ""

/-- A host on which spawning any command fails with the same OS error
regardless of the timeout in force. -/
def hostSpawnFail : Host where
  run := fun _ _ => .error (.osError "No such file or directory: sh")
  path_exists := fun _ => true
  listdir := fun _ => .ok []
  readFile := fun _ => .ok ""

/-- A small concrete filesystem host. -/
def hostFS : Host where
  run := fun _ _ => .ok ⟨0, "", ""⟩
  path_exists := fun p => p == "/data" || p == "/data/a.txt" || p == resources_dir
  listdir := fun p =>
    if p == "/data" then .ok ["b.txt", "a.txt"]
    else if p == resources_dir then .ok ["kubectl.md", "notes.txt", "docker.md"]
    else .error (.osError "No such file or directory")
  readFile := fun p =>
    if p == "/data/a.txt" then .ok "file content"
    else if p == "/skitz/internal/resources/kubectl.md" then .ok "kubectl notes"
    else .error (.osError "Permission denied")

/-- A classification verdict. -/
inductive Verdict where
  | SAFE
  | UNSAFE
  | NEEDS_DRY_RUN
deriving DecidableEq

/-- A verdict together with its human-readable reason. -/
structure ClassificationVerdict where
  verdict : Verdict
  reason : String
deriving DecidableEq

/-- A word character: letters, digits, underscore. -/
def isWordChar (c : Char) : Bool := c.isAlphanum || c == '_'

/-- The whole words of a string: maximal runs of word characters. -/
def wordsOf (s : String) : List String :=
  ((s.toList.splitOnP (fun c => !isWordChar c)).map (fun cs => String.mk cs)).filter
    (fun w => w ≠ "")

/-- The denylisted destructive tokens (spec §4.3 rule 1; also listed in the
verifier instruction text, `agent.py` lines 102-103). -/
def denylist : List String := ["rm", "delete", "drop", "truncate", "destroy"]

/-- The first denylisted token occurring in `cmd` as a whole word, if any. -/
def denyMatch (cmd : String) : Option String :=
  denylist.find? (fun t => (wordsOf cmd).contains t)

/-- Whitespace-separated tokens of a command line. -/
def tokensOf (s : String) : List String :=
  ((s.toList.splitOnP (fun c => c == ' ')).map (fun cs => String.mk cs)).filter
    (fun w => w ≠ "")

/-- The designated scratch directory of spec §4.3 rule 2. -/
def scratchDir : String := "/tmp"

/-- Targets of file-write redirections (`>`, `>>`) and of `tee`. -/
def redirTargets : List String → List String
  | [] => []
  | t :: rest =>
      if t == ">" || t == ">>" || t == "tee" then
        match rest with
        | [] => []
        | target :: rest2 => target :: redirTargets rest2
      else redirTargets rest

/-- Rule 2: a file-write redirection or `tee` whose target is not under the
scratch directory. -/
def writesOutsideScratch (cmd : String) : Bool :=
  (redirTargets (tokensOf cmd)).any (fun t => !startsWithL scratchDir t)

/-- System-mutating package/service managers (spec §4.3 rule 3). -/
def managerTokens : List String := ["apt", "yum", "systemctl"]

/-- Rule 3: invokes a system-mutating package/service manager. -/
def invokesManager (cmd : String) : Bool :=
  managerTokens.any (fun t => (wordsOf cmd).contains t) || containsStr cmd "brew install"

/-- Tools known to support `--dry-run` (spec §4.3 rule 4 leaves the table's
contents open; a small representative table). -/
def dryRunTable : List String := ["kubectl", "terraform", "helm"]

/-- Rule 4: the invoked tool supports `--dry-run` and the flag is absent. -/
def needsDryRun (cmd : String) : Bool :=
  (match tokensOf cmd with
   | [] => false
   | tool :: _ => dryRunTable.contains tool) && !containsStr cmd "--dry-run"

/-- The read-only verb whitelist of spec §4.3 rule 5. -/
def whitelistTokens : List String :=
  ["--help", "--version", "-h", "get", "list", "describe", "show", "cat"]

/-- Rule 5: matches a read-only verb whitelist entry. -/
def matchesWhitelist (cmd : String) : Bool :=
  whitelistTokens.any (fun t => (tokensOf cmd).contains t)

/-- Modelled from the spec: the Safety Classifier `classify` (spec §4.3) is
not implemented in the source — safety is enforced only by the verifier
agent's instruction text (`agent.py` lines 102-107), so this definition
follows the spec's ordered-rule description: first match wins, rule 1 is
the whole-word denylist with the matched token as reason, rule 6 is the
conservative default. Rule 3's Setup-class exemption does not arise here
because `classify` takes only the command string. -/
def classify (command : String) : ClassificationVerdict :=
  match denyMatch command with
  | some t => ⟨.UNSAFE, t⟩
  | none =>
    if writesOutsideScratch command then
      ⟨.UNSAFE, "file-write redirection outside scratch directory"⟩
    else if invokesManager command then
      ⟨.UNSAFE, "system-mutating package/service manager"⟩
    else if needsDryRun command then
      ⟨.NEEDS_DRY_RUN, "re-issue with --dry-run appended"⟩
    else if matchesWhitelist command then
      ⟨.SAFE, "read-only verb whitelist"⟩
    else
      ⟨.UNSAFE, "unclassified; conservative default"⟩

/-! ### Helper lemmas -/

theorem strData_append (s t : String) : (s ++ t).data = s.data ++ t.data := by
  cases s; cases t; rfl

theorem str_eq_empty_of_data (s : String) (h : s.data = []) : s = "" := by
  cases s with
  | mk d => cases h; rfl

theorem append_ne_empty_left (s t : String) (h : s ≠ "") : s ++ t ≠ "" := by
  intro he
  apply h
  apply str_eq_empty_of_data
  have hd : (s ++ t).data = [] := by rw [he]
  rw [strData_append] at hd
  exact (List.append_eq_nil.mp hd).1

theorem strAppend_assoc (a b c : String) : a ++ b ++ c = a ++ (b ++ c) := by
  cases a with
  | mk as =>
    cases b with
    | mk bs =>
      cases c with
      | mk cs => exact congrArg String.mk (List.append_assoc as bs cs)

theorem execOutput_eq_specPayload (r : RunResult) :
    execOutput r = specPayload r.returncode r.stdout r.stderr := by
  by_cases h : r.stderr = "" <;> simp [execOutput, specPayload, h]

theorem joinNL3 (a c : String) : pyJoin "\n" [a, "Output:", c] = a ++ "\nOutput:\n" ++ c := by
  have e1 : ("\n" : String) ++ "Output:" = "\nOutput:" := by decide
  have e2 : ("\nOutput:" : String) ++ "\n" = "\nOutput:\n" := by decide
  show (((a ++ "\n") ++ "Output:") ++ "\n") ++ c = (a ++ "\nOutput:\n") ++ c
  rw [strAppend_assoc a "\n" "Output:", e1, strAppend_assoc a "\nOutput:" "\n", e2]

theorem joinNL5 (a c e : String) :
    pyJoin "\n" [a, "Output:", c, "STDERR:", e] =
      a ++ "\nOutput:\n" ++ c ++ "\nSTDERR:\n" ++ e := by
  have e1 : ("\n" : String) ++ "Output:" = "\nOutput:" := by decide
  have e2 : ("\nOutput:" : String) ++ "\n" = "\nOutput:\n" := by decide
  have e3 : ("\n" : String) ++ "STDERR:" = "\nSTDERR:" := by decide
  have e4 : ("\nSTDERR:" : String) ++ "\n" = "\nSTDERR:\n" := by decide
  show (((((((a ++ "\n") ++ "Output:") ++ "\n") ++ c) ++ "\n") ++ "STDERR:") ++ "\n") ++ e =
    (((a ++ "\nOutput:\n") ++ c) ++ "\nSTDERR:\n") ++ e
  rw [strAppend_assoc a "\n" "Output:", e1, strAppend_assoc a "\nOutput:" "\n", e2,
    strAppend_assoc (a ++ "\nOutput:\n" ++ c) "\n" "STDERR:", e3,
    strAppend_assoc (a ++ "\nOutput:\n" ++ c) "\nSTDERR:" "\n", e4]

theorem call_tool_run_def (args : List (String × String)) (host : Host) :
    call_tool "run_command" args host =
      match host.run (dictGet args "command" "") 30 with
      | .ok result => .ok [execOutput result]
      | .error (.timeoutExpired _ _ _ _) =>
          .ok ["Error: Command timed out after 30 seconds"]
      | .error e => .ok [("Error executing command: " ++ e.str)] := rfl

theorem call_tool_setup_def (args : List (String × String)) (host : Host) :
    call_tool "setup_environment" args host =
      match host.run (dictGet args "command" "") 120 with
      | .ok result => .ok [execOutput result]
      | .error (.timeoutExpired _ _ _ _) =>
          .ok ["Error: Setup command timed out after 120 seconds"]
      | .error e => .ok [("Error executing setup: " ++ e.str)] := rfl

theorem call_tool_list_def (args : List (String × String)) (host : Host) :
    call_tool "list_files" args host =
      (let directory := dictGet args "directory" "."
       if host.path_exists directory = false then
         .ok ["Error: Directory not found: " ++ directory]
       else
         match host.listdir directory with
         | .ok files =>
             let result := pyJoin "\n" (pysorted files)
             .ok [if result ≠ "" then result else "(empty directory)"]
         | .error e => .ok [("Error listing directory: " ++ e.str)]) := rfl

theorem call_tool_read_def (args : List (String × String)) (host : Host) :
    call_tool "read_file" args host =
      (let path := dictGet args "path" ""
       if host.path_exists path = false then
         .ok ["Error: File not found: " ++ path]
       else
         match host.readFile path with
         | .ok content => .ok [content]
         | .error e => .ok [("Error reading file: " ++ e.str)]) := rfl

theorem call_tool_total (name : String) (args : List (String × String)) (host : Host) :
    ∃ out, call_tool name args host = Except.ok out := by
  unfold call_tool
  repeat' (first | split | dsimp only)
  all_goals exact ⟨_, rfl⟩

/-! ### Claim theorems -/

/-- Claim C1: every command containing a denylisted destructive token
(`rm`, `delete`, `drop`, `truncate`, `destroy`) as a whole word is
classified UNSAFE, with the reason being a denylisted token that occurs as
a whole word in the command; and `"format"`, which merely resembles a
token, is not matched by the denylist rule. -/
theorem C1_denylist_whole_word :
    (∀ cmd t, t ∈ denylist → t ∈ wordsOf cmd →
      (classify cmd).verdict = Verdict.UNSAFE ∧
      (classify cmd).reason ∈ denylist ∧ (classify cmd).reason ∈ wordsOf cmd) ∧
    denyMatch "format" = none := by
  constructor
  · intro cmd t ht hw
    have hsome : (denyMatch cmd).isSome := by
      rw [denyMatch, List.find?_isSome]
      exact ⟨t, ht, by simpa using hw⟩
    rcases hc : denyMatch cmd with _ | t'
    · rw [hc] at hsome; simp at hsome
    · have hp := List.find?_some hc
      have hm := List.mem_of_find?_eq_some hc
      refine ⟨?_, ?_, ?_⟩
      · simp [classify, hc]
      · simp only [classify, hc]
        exact hm
      · simp only [classify, hc]
        simpa using hp
  · decide

/-- Claim C1 witness: `"rm -rf /tmp/x"` contains the denylisted token `rm`
as a whole word and is classified UNSAFE with a denylisted reason. -/
theorem C1_denylist_whole_word_witness :
    (classify "rm -rf /tmp/x").verdict = Verdict.UNSAFE ∧
    (classify "rm -rf /tmp/x").reason ∈ denylist ∧
    (classify "rm -rf /tmp/x").reason ∈ wordsOf "rm -rf /tmp/x" :=
  C1_denylist_whole_word.1 "rm -rf /tmp/x" "rm" (by decide) (by decide)

/-- Claim C2 counterexample: on `hostTimeout` the command times out with
non-empty buffered stdout (`"some buffered output"`), yet `run_command`
returns the fixed message `Error: Command timed out after 30 seconds`,
which does not contain the buffered output — the claim that the `TimedOut`
result includes partial stdout/stderr is false of the code. -/
theorem C2_counterexample :
    hostTimeout.run "sleep 35" 30 =
      .error (.timeoutExpired "sleep 35" 30 "some buffered output" "") ∧
    call_tool "run_command" [("command", "sleep 35")] hostTimeout =
      .ok ["Error: Command timed out after 30 seconds"] ∧
    containsStr "Error: Command timed out after 30 seconds" "some buffered output" = false :=
  ⟨rfl, rfl, by decide⟩

/-- Claim C2 (amended): when a `run_command` execution exceeds its
30-second timeout, `call_tool` returns (rather than raises) the fixed
timeout message `Error: Command timed out after 30 seconds`, discarding
any partial stdout/stderr that was buffered before termination. -/
theorem C2_timeout_message :
    ∀ (args : List (String × String)) (host : Host) (c : String) (t : Nat)
      (pOut pErr : String),
      host.run (dictGet args "command" "") 30 = .error (.timeoutExpired c t pOut pErr) →
      call_tool "run_command" args host = .ok ["Error: Command timed out after 30 seconds"] := by
  intro args host c t pOut pErr h
  rw [call_tool_run_def, h]

/-- Claim C2 witness: the amended timeout behaviour at a concrete host. -/
theorem C2_timeout_message_witness :
    call_tool "run_command" [("command", "sleep 40")] hostTimeout =
      .ok ["Error: Command timed out after 30 seconds"] :=
  C2_timeout_message [("command", "sleep 40")] hostTimeout "sleep 40" 30
    "some buffered output" "" rfl

/-- Claim C3: `call_tool` never lets an exception escape — for every tool
name, argument mapping and host behaviour the result is an `.ok` value —
and an OS-level spawn failure is returned as the tagged error text
`Error executing command: <OS error text>`. -/
theorem C3_no_exception_escape :
    (∀ (name : String) (args : List (String × String)) (host : Host),
      ∃ out, call_tool name args host = Except.ok out) ∧
    (∀ (args : List (String × String)) (host : Host) (m : String),
      host.run (dictGet args "command" "") 30 = .error (.osError m) →
      call_tool "run_command" args host = .ok [("Error executing command: " ++ m)]) := by
  constructor
  · exact call_tool_total
  · intro args host m h
    rw [call_tool_run_def, h]
    rfl

/-- Claim C3 witness: on a host whose spawn fails with an OS error, the
result is the tagged error text and no exception escapes. -/
theorem C3_no_exception_escape_witness :
    (∃ out, call_tool "run_command" [] hostSpawnFail = Except.ok out) ∧
    call_tool "run_command" [] hostSpawnFail =
      .ok [("Error executing command: " ++ "No such file or directory: sh")] :=
  ⟨C3_no_exception_escape.1 "run_command" [] hostSpawnFail,
   C3_no_exception_escape.2 [] hostSpawnFail "No such file or directory: sh" rfl⟩

/-- Claim C4 counterexample: a `run_command` call whose arguments lack the
required `command` parameter is not rejected as an `InvalidCall`: on
`hostEcho` it is executed with the default empty command — the payload is
the sandbox's output for `""` — and the result carries no error tag. -/
theorem C4_counterexample :
    (([] : List (String × String)).find? (fun p => p.1 == "command") = none) ∧
    call_tool "run_command" [] hostEcho = .ok ["Exit Code: 0\nOutput:\nran()"] ∧
    errorTagged (call_tool "run_command" [] hostEcho) = false :=
  ⟨rfl, rfl, by decide⟩

/-- Claim C4 (amended): a call naming an unknown operation yields the
structured result `Unknown tool: <name>`, but a call to a known operation
that is missing a required parameter is NOT rejected: the handler
substitutes a default (`""` for `command` and `path`, `"."` for
`directory`) and proceeds exactly as if that default had been supplied —
for all four operations. -/
theorem C4_unknown_op_and_defaults :
    (∀ (name : String) (args : List (String × String)) (host : Host),
      name ≠ "run_command" → name ≠ "list_files" → name ≠ "read_file" →
      name ≠ "setup_environment" →
      call_tool name args host = .ok ["Unknown tool: " ++ name]) ∧
    (∀ (args : List (String × String)) (host : Host),
      args.find? (fun p => p.1 == "command") = none →
      call_tool "run_command" args host = call_tool "run_command" [("command", "")] host) ∧
    (∀ (args : List (String × String)) (host : Host),
      args.find? (fun p => p.1 == "directory") = none →
      call_tool "list_files" args host = call_tool "list_files" [("directory", ".")] host) ∧
    (∀ (args : List (String × String)) (host : Host),
      args.find? (fun p => p.1 == "path") = none →
      call_tool "read_file" args host = call_tool "read_file" [("path", "")] host) ∧
    (∀ (args : List (String × String)) (host : Host),
      args.find? (fun p => p.1 == "command") = none →
      call_tool "setup_environment" args host =
        call_tool "setup_environment" [("command", "")] host) := by
  refine ⟨?_, ?_, ?_, ?_, ?_⟩
  · intro name args host h1 h2 h3 h4
    unfold call_tool
    rw [if_neg h1, if_neg h2, if_neg h3, if_neg h4]
  · intro args host h
    have hd : dictGet args "command" "" = dictGet [("command", "")] "command" "" := by
      simp [dictGet, h]
    rw [call_tool_run_def, call_tool_run_def, hd]
  · intro args host h
    have hd : dictGet args "directory" "." = dictGet [("directory", ".")] "directory" "." := by
      simp [dictGet, h]
    rw [call_tool_list_def, call_tool_list_def, hd]
  · intro args host h
    have hd : dictGet args "path" "" = dictGet [("path", "")] "path" "" := by
      simp [dictGet, h]
    rw [call_tool_read_def, call_tool_read_def, hd]
  · intro args host h
    have hd : dictGet args "command" "" = dictGet [("command", "")] "command" "" := by
      simp [dictGet, h]
    rw [call_tool_setup_def, call_tool_setup_def, hd]

/-- Claim C4 witness: an unknown operation and a defaulted missing
parameter for each of the four operations, at concrete inputs. -/
theorem C4_unknown_op_and_defaults_witness :
    call_tool "frobnicate" [] hostEcho = .ok ["Unknown tool: " ++ "frobnicate"] ∧
    call_tool "run_command" [] hostEcho = call_tool "run_command" [("command", "")] hostEcho ∧
    call_tool "list_files" [] hostEcho = call_tool "list_files" [("directory", ".")] hostEcho ∧
    call_tool "read_file" [] hostEcho = call_tool "read_file" [("path", "")] hostEcho ∧
    call_tool "setup_environment" [] hostEcho =
      call_tool "setup_environment" [("command", "")] hostEcho :=
  ⟨C4_unknown_op_and_defaults.1 "frobnicate" [] hostEcho
      (by decide) (by decide) (by decide) (by decide),
   C4_unknown_op_and_defaults.2.1 [] hostEcho rfl,
   C4_unknown_op_and_defaults.2.2.1 [] hostEcho rfl,
   C4_unknown_op_and_defaults.2.2.2.1 [] hostEcho rfl,
   C4_unknown_op_and_defaults.2.2.2.2 [] hostEcho rfl⟩

/-- Claim C5: for every successfully spawned command, the execution
operations (`run_command`, `setup_environment`, and the agent's
`run_shell_command`) return exactly the payload
`Exit Code: <n>\nOutput:\n<stdout>` with `\nSTDERR:\n<stderr>` appended if
and only if the captured stderr is non-empty (the `specPayload` grammar of
spec §6). -/
theorem C5_payload_format :
    (∀ (args : List (String × String)) (host : Host) (r : RunResult),
      host.run (dictGet args "command" "") 30 = .ok r →
      call_tool "run_command" args host = .ok [specPayload r.returncode r.stdout r.stderr]) ∧
    (∀ (args : List (String × String)) (host : Host) (r : RunResult),
      host.run (dictGet args "command" "") 120 = .ok r →
      call_tool "setup_environment" args host =
        .ok [specPayload r.returncode r.stdout r.stderr]) ∧
    (∀ (cmd : String) (host : Host) (r : RunResult),
      host.run cmd 30 = .ok r →
      run_shell_command cmd host = .ok (specPayload r.returncode r.stdout r.stderr)) := by
  refine ⟨?_, ?_, ?_⟩
  · intro args host r h
    rw [call_tool_run_def, h]
    dsimp only
    rw [execOutput_eq_specPayload]
  · intro args host r h
    rw [call_tool_setup_def, h]
    dsimp only
    rw [execOutput_eq_specPayload]
  · intro cmd host r h
    unfold run_shell_command
    rw [h]
    by_cases hs : r.stderr = ""
    · simp only [hs, ne_eq, not_true_eq_false, if_false]
      rw [joinNL3]
      simp [specPayload, hs]
    · simp only [ne_eq, hs, not_false_eq_true, if_true, List.cons_append, List.nil_append]
      rw [joinNL5]
      simp [specPayload, hs]

/-- Claim C5 witness: the payload at a concrete completed command. -/
theorem C5_payload_format_witness :
    call_tool "run_command" [("command", "echo hi")] hostEcho =
      .ok [specPayload 0 "ran(echo hi)" ""] :=
  C5_payload_format.1 [("command", "echo hi")] hostEcho ⟨0, "ran(echo hi)", ""⟩ rfl

/-- Claim C6: `list_files` returns the sorted entry names when the
directory exists (and a `NotFound`-tagged error text when it does not),
`read_file` returns the file content when the path exists (and a
`NotFound`-tagged error text when it does not), and neither primitive ever
lets an exception escape the multiplexer boundary. -/
theorem C6_fs_primitives :
    (∀ (args : List (String × String)) (host : Host),
      host.path_exists (dictGet args "directory" ".") = false →
      call_tool "list_files" args host =
        .ok ["Error: Directory not found: " ++ dictGet args "directory" "."]) ∧
    (∀ (args : List (String × String)) (host : Host) (fs : List String),
      host.path_exists (dictGet args "directory" ".") = true →
      host.listdir (dictGet args "directory" ".") = .ok fs →
      pyJoin "\n" (pysorted fs) ≠ "" →
      call_tool "list_files" args host = .ok [pyJoin "\n" (pysorted fs)] ∧
      List.Sorted (fun a b => strLe a b = true) (pysorted fs) ∧
      (pysorted fs).Perm fs) ∧
    (∀ (args : List (String × String)) (host : Host),
      host.path_exists (dictGet args "path" "") = false →
      call_tool "read_file" args host =
        .ok ["Error: File not found: " ++ dictGet args "path" ""]) ∧
    (∀ (args : List (String × String)) (host : Host) (c : String),
      host.path_exists (dictGet args "path" "") = true →
      host.readFile (dictGet args "path" "") = .ok c →
      call_tool "read_file" args host = .ok [c]) ∧
    (∀ (args : List (String × String)) (host : Host),
      (∃ out, call_tool "list_files" args host = Except.ok out) ∧
      (∃ out, call_tool "read_file" args host = Except.ok out)) := by
  refine ⟨?_, ?_, ?_, ?_, ?_⟩
  · intro args host h
    rw [call_tool_list_def]
    dsimp only
    rw [if_pos h]
  · intro args host fs h1 h2 h3
    refine ⟨?_, List.sorted_insertionSort _ fs, List.perm_insertionSort _ fs⟩
    rw [call_tool_list_def]
    dsimp only
    rw [if_neg (by simp [h1]), h2]
    dsimp only
    rw [if_pos h3]
  · intro args host h
    rw [call_tool_read_def]
    dsimp only
    rw [if_pos h]
  · intro args host c h1 h2
    rw [call_tool_read_def]
    dsimp only
    rw [if_neg (by simp [h1]), h2]
  · intro args host
    exact ⟨call_tool_total _ _ _, call_tool_total _ _ _⟩

/-- Claim C6 witness: the filesystem primitives at a concrete host. -/
theorem C6_fs_primitives_witness :
    (call_tool "list_files" [("directory", "/nope")] hostFS =
      .ok ["Error: Directory not found: " ++ "/nope"]) ∧
    (call_tool "list_files" [("directory", "/data")] hostFS =
        .ok [pyJoin "\n" (pysorted ["b.txt", "a.txt"])] ∧
      List.Sorted (fun a b => strLe a b = true) (pysorted ["b.txt", "a.txt"]) ∧
      (pysorted ["b.txt", "a.txt"]).Perm ["b.txt", "a.txt"]) ∧
    call_tool "read_file" [("path", "/data/a.txt")] hostFS = .ok ["file content"] :=
  ⟨C6_fs_primitives.1 [("directory", "/nope")] hostFS rfl,
   C6_fs_primitives.2.1 [("directory", "/data")] hostFS ["b.txt", "a.txt"] rfl rfl (by decide),
   C6_fs_primitives.2.2.2.1 [("path", "/data/a.txt")] hostFS "file content" rfl rfl⟩

/-- Claim C7: the Resource Loader lists resource names sorted and reports
every error condition (missing directory, listing failure, read failure) as
a non-empty error message, never as silently empty content; `read_resource`
returns the file content on success. -/
theorem C7_resource_loader :
    (∀ (host : Host) (fs : List String),
      host.path_exists resources_dir = true →
      host.listdir resources_dir = .ok fs →
      list_resources host =
        .ok (pyJoin "\n" (pysorted (fs.filter (fun f => pyEndsWith f ".md")))) ∧
      List.Sorted (fun a b => strLe a b = true)
        (pysorted (fs.filter (fun f => pyEndsWith f ".md")))) ∧
    (∀ host : Host, host.path_exists resources_dir = false →
      list_resources host = .ok "Resources directory not found. Ensure /skitz is mounted." ∧
      ("Resources directory not found. Ensure /skitz is mounted." : String) ≠ "") ∧
    (∀ (host : Host) (e : PyExc),
      host.path_exists resources_dir = true →
      host.listdir resources_dir = .error e →
      list_resources host = .ok ("Error listing resources: " ++ e.str) ∧
      ("Error listing resources: " ++ e.str) ≠ "") ∧
    (∀ (filename : String) (host : Host) (c : String),
      host.readFile ("/skitz/internal/resources/" ++ filename) = .ok c →
      read_resource filename host = .ok c) ∧
    (∀ (filename : String) (host : Host) (e : PyExc),
      host.readFile ("/skitz/internal/resources/" ++ filename) = .error e →
      read_resource filename host = .ok ("Error reading " ++ filename ++ ": " ++ e.str) ∧
      ("Error reading " ++ filename ++ ": " ++ e.str) ≠ "") := by
  refine ⟨?_, ?_, ?_, ?_, ?_⟩
  · intro host fs h1 h2
    refine ⟨?_, List.sorted_insertionSort _ _⟩
    unfold list_resources
    rw [if_neg (by simp [h1]), h2]
  · intro host h
    refine ⟨?_, by decide⟩
    unfold list_resources
    rw [if_pos h]
  · intro host e h1 h2
    refine ⟨?_, append_ne_empty_left _ _ (by decide)⟩
    unfold list_resources
    rw [if_neg (by simp [h1]), h2]
  · intro filename host c h
    unfold read_resource
    rw [h]
  · intro filename host e h
    refine ⟨?_, ?_⟩
    · unfold read_resource
      rw [h]
    · exact append_ne_empty_left _ _
        (append_ne_empty_left _ _ (append_ne_empty_left _ _ (by decide)))

/-- Claim C7 witness: the loader at a concrete host. -/
theorem C7_resource_loader_witness :
    (list_resources hostFS =
        .ok (pyJoin "\n" (pysorted (["kubectl.md", "notes.txt", "docker.md"].filter
          (fun f => pyEndsWith f ".md")))) ∧
      List.Sorted (fun a b => strLe a b = true)
        (pysorted (["kubectl.md", "notes.txt", "docker.md"].filter
          (fun f => pyEndsWith f ".md")))) ∧
    read_resource "kubectl.md" hostFS = .ok "kubectl notes" :=
  ⟨C7_resource_loader.1 hostFS ["kubectl.md", "notes.txt", "docker.md"] rfl rfl,
   C7_resource_loader.2.2.2.1 "kubectl.md" hostFS "kubectl notes" rfl⟩

/-- Claim C8 counterexample: on `hostSpawnFail` the execution outcome is
identical under both timeout classes (the same OS spawn error), yet
`run_command` and `setup_environment` return different payloads
(`Error executing command: ...` vs `Error executing setup: ...`) — so the
two operations do not differ only in their timeout class. -/
theorem C8_counterexample :
    hostSpawnFail.run "x" 30 = hostSpawnFail.run "x" 120 ∧
    call_tool "run_command" [("command", "x")] hostSpawnFail =
      .ok ["Error executing command: No such file or directory: sh"] ∧
    call_tool "setup_environment" [("command", "x")] hostSpawnFail =
      .ok ["Error executing setup: No such file or directory: sh"] ∧
    call_tool "run_command" [("command", "x")] hostSpawnFail ≠
      call_tool "setup_environment" [("command", "x")] hostSpawnFail := by
  refine ⟨rfl, rfl, rfl, fun h => ?_⟩
  exact absurd (Except.ok.inj h) (by decide)

/-- Claim C8 (amended): `run_command` and `setup_environment` run the same
command through the same payload formatter and differ in timeout class
(30s vs 120s) and in the wording of their timeout and error messages; in
particular, whenever the command completes with the same result under both
timeouts, the two operations return identical payloads. -/
theorem C8_completed_agree :
    ∀ (args : List (String × String)) (host : Host) (r : RunResult),
      host.run (dictGet args "command" "") 30 = .ok r →
      host.run (dictGet args "command" "") 120 = .ok r →
      call_tool "run_command" args host = call_tool "setup_environment" args host := by
  intro args host r h30 h120
  rw [call_tool_run_def, call_tool_setup_def, h30, h120]

/-- Claim C8 witness: identical payloads at a concrete completed command. -/
theorem C8_completed_agree_witness :
    call_tool "run_command" [("command", "echo")] hostEcho =
      call_tool "setup_environment" [("command", "echo")] hostEcho :=
  C8_completed_agree [("command", "echo")] hostEcho ⟨0, "ran(echo)", ""⟩ rfl rfl

theorem runSeq_append_last (step : Host → ToolCall → Host) (h : Host)
    (cs : List ToolCall) (c : ToolCall) :
    (runSeq step h (cs ++ [c])).2 =
      (runSeq step h cs).2 ++ [call_tool c.name c.arguments (finalHost step h cs)] := by
  induction cs generalizing h with
  | nil => rfl
  | cons d ds ih =>
    show call_tool d.name d.arguments h :: (runSeq step (step h d) (ds ++ [c])).2 =
      (call_tool d.name d.arguments h :: (runSeq step (step h d) ds).2) ++
        [call_tool c.name c.arguments (finalHost step (step h d) ds)]
    rw [List.cons_append, ih (step h d)]

/-- Claim C9: the Tool Multiplexer is stateless between calls — the
source's `call_tool` reads and writes no server-side state, so the result
of a call depends only on the call itself and the host state at that
moment: two invocations of the same `ToolCall` after arbitrary different
call histories that lead to the same host state return identical
results. -/
theorem C9_stateless :
    ∀ (step : Host → ToolCall → Host) (h1 h2 : Host) (p1 p2 : List ToolCall) (c : ToolCall),
      finalHost step h1 p1 = finalHost step h2 p2 →
      (runSeq step h1 (p1 ++ [c])).2.getLast? = (runSeq step h2 (p2 ++ [c])).2.getLast? := by
  intro step h1 h2 p1 p2 c hfin
  rw [runSeq_append_last, runSeq_append_last, List.getLast?_concat,
    List.getLast?_concat, hfin]

/-- Claim C9 witness: the same call after two different histories that
leave the host unchanged returns identical results. -/
theorem C9_stateless_witness :
    (runSeq (fun h _ => h) hostEcho
        ([] ++ [⟨"read_file", [("path", "/x")]⟩])).2.getLast? =
      (runSeq (fun h _ => h) hostEcho
        ([⟨"run_command", []⟩] ++ [⟨"read_file", [("path", "/x")]⟩])).2.getLast? :=
  C9_stateless (fun h _ => h) hostEcho hostEcho [] [⟨"run_command", []⟩]
    ⟨"read_file", [("path", "/x")]⟩ rfl

/-- Claim C10: `list_resources` lists only entries ending in `.md`: a file
present on disk whose name does not end in `.md` never appears among the
listed (filtered, sorted) names. -/
theorem C10_md_filter :
    ∀ (host : Host) (fs : List String) (f : String),
      host.path_exists resources_dir = true →
      host.listdir resources_dir = .ok fs →
      f ∈ fs → pyEndsWith f ".md" = false →
      list_resources host =
        .ok (pyJoin "\n" (pysorted (fs.filter (fun g => pyEndsWith g ".md")))) ∧
      f ∉ pysorted (fs.filter (fun g => pyEndsWith g ".md")) := by
  intro host fs f h1 h2 _ hnot
  constructor
  · unfold list_resources
    rw [if_neg (by simp [h1]), h2]
  · intro hin
    simp only [pysorted, List.mem_insertionSort] at hin
    rw [List.mem_filter] at hin
    rw [hin.2] at hnot
    exact Bool.noConfusion hnot

/-- Claim C10 witness: `notes.txt` is on disk but never listed. -/
theorem C10_md_filter_witness :
    list_resources hostFS =
      .ok (pyJoin "\n" (pysorted (["kubectl.md", "notes.txt", "docker.md"].filter
        (fun g => pyEndsWith g ".md")))) ∧
    "notes.txt" ∉ pysorted (["kubectl.md", "notes.txt", "docker.md"].filter
      (fun g => pyEndsWith g ".md")) :=
  C10_md_filter hostFS ["kubectl.md", "notes.txt", "docker.md"] "notes.txt" rfl rfl
    (by decide) (by decide)

end Skitz
